import Mathlib

/-!
Verification of the OAuth authorization core of the Flutter Test Coverage
Sentinel repository: the `OAuthService` class (token / user / CSRF-state
storage, authorization-URL building, callback handling, token exchange),
the serverless token-exchange proxy (`api/oauth` handler), and the
`OAuthCallback` component's retry loop.

Browser `localStorage` is modelled as a record with one optional string
slot per fixed storage key (`sentinel_oauth_token`, `sentinel_oauth_state`,
`sentinel_oauth_user`); the storage medium is assumed available, so the
`try/catch` wrappers around storage access in the source never take their
error branch.  Network effects (the proxy fetch, the upstream GitHub fetch,
the user-profile fetch) are passed in as explicit outcome values.
-/

namespace Sentinel

/-- Does `pat` occur as a contiguous run starting at some position of the
second list?  Helper for modelling `String.prototype.includes`. -/
def containsAux (pat : List Char) : List Char → Bool
  | [] => List.isPrefixOf pat []
  | c :: cs => List.isPrefixOf pat (c :: cs) || containsAux pat cs

/-- JavaScript string containment (`String.prototype.includes`): `pat`
occurs as a contiguous substring of `s`. -/
def strIncludes (s pat : String) : Bool :=
  containsAux pat.toList s.toList

/-- A GitHub user profile as stored by the service (`login`, `name`,
`avatar_url`, `email`).  JSON (de)serialization is identity in the model. -/
structure GitHubUser where
  login : String
  name : String
  avatar_url : String
  email : String
deriving DecidableEq, Repr

/-- Browser `localStorage` restricted to the three fixed keys of
`STORAGE_KEYS`: `TOKEN`, `STATE`, `USER`.  `none` models an absent key. -/
structure Storage where
  token : Option String
  state : Option String
  user : Option GitHubUser
deriving DecidableEq, Repr

/-- The empty storage: no key present. -/
def Storage.empty : Storage := ⟨none, none, none⟩

/-- `OAuthService.storeToken`: `localStorage.setItem(STORAGE_KEYS.TOKEN, token)`. -/
def storeToken (token : String) (σ : Storage) : Storage :=
  { σ with token := some token }

/-- `OAuthService.getToken`: `localStorage.getItem(STORAGE_KEYS.TOKEN)`;
`none` plays the role of `null`. -/
def getToken (σ : Storage) : Option String :=
  σ.token

/-- `OAuthService.revokeToken`: removes the token, user and state keys. -/
def revokeToken (σ : Storage) : Storage :=
  { σ with token := none, user := none, state := none }

/-- `OAuthService.isAuthenticated`: `token !== null && token.length > 0`. -/
def isAuthenticated (σ : Storage) : Bool :=
  match getToken σ with
  | none => false
  | some t => decide (0 < t.length)

/-- `OAuthService.storeUser`: stores the profile under the user key
(JSON serialization abstracted away). -/
def storeUser (u : GitHubUser) (σ : Storage) : Storage :=
  { σ with user := some u }

/-- `OAuthService.storeState`: `localStorage.setItem(STORAGE_KEYS.STATE, state)`. -/
def storeState (s : String) (σ : Storage) : Storage :=
  { σ with state := some s }

/-- `OAuthService.validateState`: reads the stored state, removes the
state key unconditionally, and returns `storedState === state` together
with the updated storage (`null === candidate` is false). -/
def validateState (candidate : String) (σ : Storage) : Bool × Storage :=
  let storedState := σ.state
  let σ' := { σ with state := none }
  (decide (storedState = some candidate), σ')

/-- JavaScript `a || b` on an optional string field of a parsed JSON body:
the default is taken when the field is absent or the empty string (falsy). -/
def jsOr (o : Option String) (d : String) : String :=
  match o with
  | none => d
  | some s => if s = "" then d else s

/-- Outcome of the browser `fetch` against the OAuth proxy, as observed by
`exchangeCodeForToken`: either the fetch (or JSON parsing) threw an error
with the given message, or it produced a response with `ok` flag and a
parsed JSON body carrying optional `message` and `access_token` fields
(`message = none` also covers the `.catch(() => ({error: ...}))` fallback
whose object has no `message`). -/
inductive FetchOutcome where
  | threw (message : String)
  | response (ok : Bool) (message : Option String) (access_token : Option String)
deriving DecidableEq, Repr

/-- The `try` block of `OAuthService.exchangeCodeForToken`: a non-ok
response throws `errorData.message || 'Failed to exchange authorization
code'`; an ok response without a truthy `access_token` throws `'No access
token received from server'`; otherwise the token is returned. -/
def tryExchangeCodeForToken (outcome : FetchOutcome) : Except String String :=
  match outcome with
  | .threw m => .error m
  | .response ok message access_token =>
    if !ok then
      .error (jsOr message "Failed to exchange authorization code")
    else
      match access_token with
      | none => .error "No access token received from server"
      | some t =>
        if t = "" then .error "No access token received from server"
        else .ok t

/-- `OAuthService.exchangeCodeForToken`: runs the `try` block; the `catch`
replaces any error whose message contains `'fetch'` by the fixed
proxy-not-configured error and rethrows every other error unchanged. -/
def exchangeCodeForToken (outcome : FetchOutcome) : Except String String :=
  match tryExchangeCodeForToken outcome with
  | .ok t => .ok t
  | .error m =>
    if strIncludes m "fetch" then
      .error "OAuth proxy is not configured. Please deploy the backend function."
    else
      .error m

/-- `OAuthService.fetchAndStoreUser`: stores the fetched profile on
success; any failure (non-ok response or thrown fetch error) is caught,
logged and swallowed, leaving storage unchanged. -/
def fetchAndStoreUser (profile : Except String GitHubUser) (σ : Storage) :
    Storage :=
  match profile with
  | .ok u => storeUser u σ
  | .error _ => σ

/-- Result of one `OAuthService.handleCallback` call: the returned token or
thrown error message, the storage afterwards, and whether the token
exchange (the proxy fetch) was reached at all. -/
structure CallbackResult where
  result : Except String String
  store : Storage
  exchangeAttempted : Bool
deriving Repr

/-- `OAuthService.handleCallback`: validates (and thereby consumes) the
stored CSRF state; on mismatch throws the invalid-state error without
touching the network; otherwise exchanges the code (outcome `outcome`),
stores the token, runs the best-effort profile fetch and returns the
token.  Errors from the exchange propagate. -/
def handleCallback (outcome : FetchOutcome)
    (profile : Except String GitHubUser) (code state : String)
    (σ : Storage) : CallbackResult :=
  let v := validateState state σ
  if !v.1 then
    ⟨.error "Invalid state parameter. Possible CSRF attack.", v.2, false⟩
  else
    match exchangeCodeForToken outcome with
    | .error e => ⟨.error e, v.2, true⟩
    | .ok token =>
      let σ2 := storeToken token v.2
      let σ3 := fetchAndStoreUser profile σ2
      ⟨.ok token, σ3, true⟩

/-- `OAuthConfig` from `oauthConfig.ts`: client id, redirect URI, scope
list and the two GitHub endpoints. -/
structure OAuthConfig where
  clientId : String
  redirectUri : String
  scope : List String
  authorizationUrl : String
  tokenUrl : String
deriving Repr

/-- `GITHUB_OAUTH_CONFIG`: scopes `['repo', 'read:user']` and the GitHub
endpoints are fixed; `clientId` and `redirectUri` come from the
environment (parameters of the model). -/
def GITHUB_OAUTH_CONFIG (clientId redirectUri : String) : OAuthConfig :=
  { clientId := clientId
    redirectUri := redirectUri
    scope := ["repo", "read:user"]
    authorizationUrl := "https://github.com/login/oauth/authorize"
    tokenUrl := "https://github.com/login/oauth/access_token" }

/-- Hexadecimal digit (uppercase), for percent-encoding. -/
def hexDigitChar (n : Nat) : Char :=
  if n < 10 then Char.ofNat (48 + n) else Char.ofNat (55 + n)

/-- Percent-encoding of one byte, `%XX` with uppercase hex. -/
def percentEncodeByte (b : UInt8) : List Char :=
  ['%', hexDigitChar (b.toNat / 16), hexDigitChar (b.toNat % 16)]

/-- `application/x-www-form-urlencoded` encoding of one character, as
`URLSearchParams.toString()` performs it: alphanumerics and `*-._` are
kept, a space becomes `+`, everything else is percent-encoded per UTF-8
byte. -/
def encodeFormChar (c : Char) : List Char :=
  if c = ' ' then ['+']
  else if c.isAlphanum ∨ c = '*' ∨ c = '-' ∨ c = '.' ∨ c = '_' then [c]
  else (String.utf8EncodeChar c).flatMap percentEncodeByte

/-- Form-url-encoding of a whole string. -/
def encodeFormComponent (s : String) : String :=
  String.mk (s.toList.flatMap encodeFormChar)

/-- `URLSearchParams.toString()`: `k=v` pairs joined by `&`, both sides
form-url-encoded, insertion order preserved. -/
def encodeParams (ps : List (String × String)) : String :=
  String.intercalate "&" (ps.map fun p =>
    encodeFormComponent p.1 ++ "=" ++ encodeFormComponent p.2)

/-- The query parameters `OAuthService.generateAuthUrl` passes to
`URLSearchParams`, in source order. -/
def authUrlParams (state : String) (cfg : OAuthConfig) :
    List (String × String) :=
  [("client_id", cfg.clientId),
   ("redirect_uri", cfg.redirectUri),
   ("scope", String.intercalate " " cfg.scope),
   ("state", state),
   ("allow_signup", "true")]

/-- `OAuthService.generateAuthUrl`: generates a fresh CSRF state (the
random `generateState()` output is the `state` parameter of the model),
persists it via `storeState`, and returns
`authorizationUrl ++ "?" ++ params.toString()`. -/
def generateAuthUrl (state : String) (cfg : OAuthConfig) (σ : Storage) :
    String × Storage :=
  let σ' := storeState state σ
  (cfg.authorizationUrl ++ "?" ++ encodeParams (authUrlParams state cfg), σ')

/-- JavaScript falsiness of an optional string (`undefined`/`null` or
the empty string). -/
def jsFalsy : Option String → Bool
  | none => true
  | some s => s == ""

/-- Request body of the proxy endpoint: the three destructured fields,
each possibly absent. -/
structure ProxyBody where
  code : Option String
  client_id : Option String
  redirect_uri : Option String
deriving DecidableEq, Repr

/-- An HTTP request as seen by the serverless `handler`. -/
structure ProxyRequest where
  method : String
  body : ProxyBody
deriving DecidableEq, Repr

/-- Response body produced by the proxy: empty (`res.end()`), an error
object `{error, message?}`, or the token object
`{access_token, token_type, scope}`. -/
inductive ResBody where
  | empty
  | errJson (error : String) (message : Option String)
  | tokenJson (access_token token_type scope : Option String)
deriving DecidableEq, Repr

/-- The proxy's HTTP response: status plus JSON (or empty) body. -/
structure ProxyResponse where
  status : Nat
  body : ResBody
deriving DecidableEq, Repr

/-- Outcome of the proxy's upstream `fetch` to
`https://github.com/login/oauth/access_token`: the fetch (or body
parsing) threw, or a response arrived with `ok` flag, HTTP status and the
parsed JSON fields the handler reads. -/
inductive UpstreamOutcome where
  | threw (message : String)
  | response (ok : Bool) (status : Nat) (error : Option String)
      (error_description : Option String)
      (access_token token_type scope : Option String)
deriving DecidableEq, Repr

/-- The serverless token-exchange `handler` (`api/oauth`): OPTIONS
preflight returns 200 empty; any other non-POST method 405; missing (or
JS-falsy) `code`/`client_id`/`redirect_uri` 400 before any upstream call;
missing server secret 500; a thrown upstream fetch 500; a non-ok upstream
response is passed through with its status; an ok upstream response whose
body carries a truthy `error` field yields 400; otherwise 200 with the
token object.  The boolean records whether the upstream call was
attempted. -/
def handler (client_secret : Option String) (upstream : UpstreamOutcome)
    (req : ProxyRequest) : ProxyResponse × Bool :=
  if req.method = "OPTIONS" then
    (⟨200, .empty⟩, false)
  else if req.method ≠ "POST" then
    (⟨405, .errJson "Method not allowed" none⟩, false)
  else if jsFalsy req.body.code ∨ jsFalsy req.body.client_id ∨
      jsFalsy req.body.redirect_uri then
    (⟨400, .errJson "Missing required parameters"
      (some "code, client_id, and redirect_uri are required")⟩, false)
  else if jsFalsy client_secret then
    (⟨500, .errJson "Server configuration error"
      (some "OAuth is not properly configured on the server")⟩, false)
  else
    match upstream with
    | .threw m =>
      (⟨500, .errJson "Internal server error"
        (some (jsOr (some m) "An unexpected error occurred"))⟩, true)
    | .response ok status error error_description access_token token_type
        scope =>
      if !ok then
        (⟨status, .errJson "Token exchange failed"
          (some "Failed to exchange authorization code for access token")⟩,
         true)
      else if jsFalsy error then
        (⟨200, .tokenJson access_token token_type scope⟩, true)
      else
        (⟨400, .errJson (error.getD "")
          (some (jsOr error_description "Authorization failed"))⟩, true)

/-- A JavaScript `Error` as the `OAuthCallback` component inspects it:
`name` and `message`. -/
structure JsError where
  name : String
  message : String
deriving DecidableEq, Repr

/-- `MAX_RETRIES = 3` in the `OAuthCallback` component. -/
def MAX_RETRIES : Nat := 3

/-- The component's retryability test: the message contains `'network'`,
`'timeout'` or `'fetch'`, or the error's name is `'NetworkError'`. -/
def isRetryableError (e : JsError) : Bool :=
  strIncludes e.message "network" || strIncludes e.message "timeout" ||
    strIncludes e.message "fetch" || e.name == "NetworkError"

/-- The status `useState` of the `OAuthCallback` component:
`'processing' | 'success' | 'error'`. -/
inductive CallbackStatus where
  | processing
  | success
  | error
deriving DecidableEq, Repr

/-- One recorded invocation of the component's inner `handleCallback`:
the time it ran (ms since mount) and the `retryCount` value captured by
the closure that ran it. -/
structure Invocation where
  time : Nat
  captured : Nat
deriving DecidableEq, Repr

/-- The live state of the `OAuthCallback` component plus the browser's
pending work: the React `retryCount` and `status` states, the pending
`setTimeout` handler re-invocations as `(fire time, captured retryCount)`
pairs, the times at which a redirect to `/` has been scheduled, and the
trace of handler invocations so far (oldest first). -/
structure VMState where
  retryCount : Nat
  status : CallbackStatus
  timers : List (Nat × Nat)
  redirects : List Nat
  trace : List Invocation
deriving DecidableEq, Repr

/-- The component state at mount: `retryCount = 0`, status
`'processing'`, nothing scheduled, nothing invoked. -/
def VMState.init : VMState := ⟨0, .processing, [], [], []⟩

/-- One invocation of the component's inner `handleCallback` (valid
`code`/`state` query parameters, no `error=access_denied`) when
`oauthService.handleCallback` throws `e` on every attempt, under React
semantics.  `t` is the invocation time (ms since mount) and `captured`
the `retryCount` value the invoking closure captured at its render.  In
the catch, `retryCount < MAX_RETRIES` and `Math.pow(2, retryCount)` read
the captured value, while `setRetryCount(prev => prev + 1)` performs a
functional update on the live state.  On a retryable error below the
budget the handler schedules `setTimeout` on the same (stale) closure
after `2 ^ captured * 1000` ms, and the `[retryCount]` dependency of the
effect then re-runs it, so a fresh closure re-invokes the handler at the
same `t` with the updated live counter — modelled by the recursive call.
Otherwise the component sets status `'error'` and schedules the 3000 ms
redirect.  `fuel` bounds the nested effect re-runs and is never exhausted
in the runs proved below. -/
def invokeThrowing (e : JsError) (fuel : Nat) (t captured : Nat)
    (s : VMState) : VMState :=
  let s1 := { s with trace := s.trace ++ [Invocation.mk t captured] }
  if isRetryableError e = true ∧ captured < MAX_RETRIES then
    let s2 := { s1 with
      retryCount := s1.retryCount + 1,
      timers := s1.timers ++ [(t + 2 ^ captured * 1000, captured)] }
    match fuel with
    | 0 => s2
    | fuel + 1 => invokeThrowing e fuel t s2.retryCount s2
  else
    { s1 with status := .error, redirects := s1.redirects ++ [t + 3000] }

end Sentinel

namespace Sentinel

/-- C1: `validateState` is single-use: it deletes the stored CSRF state on
every call and returns whether it equalled the candidate.  Consequently,
after `storeState s` the first `validateState s` succeeds and a second
one fails; after `storeState s1`, for `s2 ≠ s1` both `validateState s2`
and a subsequent `validateState s1` fail; and with no stored state every
candidate (the empty string included) is rejected. -/
theorem validateState_single_use (σ : Storage) (s s1 s2 c : String)
    (hne : s1 ≠ s2) (hempty : σ.state = none) :
    (validateState s (storeState s σ)).1 = true ∧
    (validateState s (validateState s (storeState s σ)).2).1 = false ∧
    (validateState s2 (storeState s1 σ)).1 = false ∧
    (validateState s1 (validateState s2 (storeState s1 σ)).2).1 = false ∧
    (validateState c σ).1 = false ∧
    (validateState "" σ).1 = false := by
  refine ⟨?_, ?_, ?_, ?_, ?_, ?_⟩ <;>
    simp [validateState, storeState, hempty]
  exact hne

/-- Witness for C1 at `σ = Storage.empty`, `s = "alpha"`, `s1 = "alpha"`,
`s2 = "beta"`, `c = "gamma"`. -/
theorem validateState_single_use_witness :
    (validateState "alpha" (storeState "alpha" Storage.empty)).1 = true ∧
    (validateState "alpha"
      (validateState "alpha" (storeState "alpha" Storage.empty)).2).1 = false ∧
    (validateState "beta" (storeState "alpha" Storage.empty)).1 = false ∧
    (validateState "alpha"
      (validateState "beta" (storeState "alpha" Storage.empty)).2).1 = false ∧
    (validateState "gamma" Storage.empty).1 = false ∧
    (validateState "" Storage.empty).1 = false :=
  validateState_single_use Storage.empty "alpha" "alpha" "beta" "gamma"
    (by decide) rfl

/-- C9: Token storage round-trip: for every non-empty token `t`,
`storeToken t` followed by `getToken` yields exactly `t`. -/
theorem storeToken_getToken_roundtrip (σ : Storage) (t : String)
    (hne : t ≠ "") :
    getToken (storeToken t σ) = some t := by
  simp [getToken, storeToken]

/-- Witness for C9 at `t = "tok123"` on empty storage. -/
theorem storeToken_getToken_roundtrip_witness :
    getToken (storeToken "tok123" Storage.empty) = some "tok123" :=
  storeToken_getToken_roundtrip Storage.empty "tok123" (by decide)

/-- C2: with state `s1` stored and a previously unauthenticated session,
`handleCallback code s2` for any `s2 ≠ s1` fails with the invalid-state
error, never reaches the token exchange, consumes the stored state, and
leaves the session unauthenticated with no token stored — whatever the
proxy and profile-fetch outcomes would have been. -/
theorem handleCallback_rejects_mismatched_state (outcome : FetchOutcome)
    (profile : Except String GitHubUser) (code s1 s2 : String) (σ : Storage)
    (hne : s2 ≠ s1) (htok : σ.token = none) :
    (handleCallback outcome profile code s2 (storeState s1 σ)).result =
      .error "Invalid state parameter. Possible CSRF attack." ∧
    (handleCallback outcome profile code s2
      (storeState s1 σ)).exchangeAttempted = false ∧
    (handleCallback outcome profile code s2 (storeState s1 σ)).store.state =
      none ∧
    (handleCallback outcome profile code s2 (storeState s1 σ)).store.token =
      none ∧
    isAuthenticated
      (handleCallback outcome profile code s2 (storeState s1 σ)).store =
      false := by
  have hne1 : ¬ (s1 = s2) := fun h => hne h.symm
  refine ⟨?_, ?_, ?_, ?_, ?_⟩ <;>
    simp [handleCallback, validateState, storeState, isAuthenticated,
      getToken, htok, hne1]

/-- Witness for C2 at `s1 = "alpha"`, `s2 = "beta"`, a proxy outcome that
would have returned `tok123`, and a failing profile fetch. -/
theorem handleCallback_rejects_mismatched_state_witness :
    (handleCallback (.response true none (some "tok123"))
      (.error "profile down") "abc" "beta"
      (storeState "alpha" Storage.empty)).result =
      .error "Invalid state parameter. Possible CSRF attack." ∧
    (handleCallback (.response true none (some "tok123"))
      (.error "profile down") "abc" "beta"
      (storeState "alpha" Storage.empty)).exchangeAttempted = false ∧
    (handleCallback (.response true none (some "tok123"))
      (.error "profile down") "abc" "beta"
      (storeState "alpha" Storage.empty)).store.state = none ∧
    (handleCallback (.response true none (some "tok123"))
      (.error "profile down") "abc" "beta"
      (storeState "alpha" Storage.empty)).store.token = none ∧
    isAuthenticated
      (handleCallback (.response true none (some "tok123"))
        (.error "profile down") "abc" "beta"
        (storeState "alpha" Storage.empty)).store = false := by
  have h := handleCallback_rejects_mismatched_state
    (.response true none (some "tok123")) (.error "profile down")
    "abc" "alpha" "beta" Storage.empty (by decide) rfl
  exact h

/-- C3: with state `s` stored, `handleCallback code s` against an exchange
that responds ok with `{access_token: t}` (for a real, non-empty token `t`)
returns `t`, persists it (`getToken = t`, `isAuthenticated = true`), and
does so for every profile-fetch outcome — in particular a profile-fetch
failure is swallowed and neither fails the callback nor removes the
token. -/
theorem handleCallback_happy_path (profile : Except String GitHubUser)
    (msg : Option String) (code s t : String) (σ : Storage) (ht : t ≠ "") :
    (handleCallback (.response true msg (some t)) profile code s
      (storeState s σ)).result = .ok t ∧
    getToken (handleCallback (.response true msg (some t)) profile code s
      (storeState s σ)).store = some t ∧
    isAuthenticated (handleCallback (.response true msg (some t)) profile
      code s (storeState s σ)).store = true := by
  have hlen : 0 < t.length := by
    have h2 : ¬ t.length = 0 := by
      intro h0
      apply ht
      cases t with
      | mk data =>
        cases data with
        | nil => rfl
        | cons c cs => simp [String.length] at h0
    omega
  refine ⟨?_, ?_, ?_⟩ <;>
    cases profile <;>
      simp [handleCallback, validateState, storeState, exchangeCodeForToken,
        tryExchangeCodeForToken, ht, fetchAndStoreUser, storeToken,
        storeUser, getToken, isAuthenticated, hlen]

/-- Witness for C3 at `s = "alpha"`, `t = "tok123"`, with a failing
profile fetch. -/
theorem handleCallback_happy_path_witness :
    (handleCallback (.response true none (some "tok123"))
      (.error "profile down") "abc" "alpha"
      (storeState "alpha" Storage.empty)).result = .ok "tok123" ∧
    getToken (handleCallback (.response true none (some "tok123"))
      (.error "profile down") "abc" "alpha"
      (storeState "alpha" Storage.empty)).store = some "tok123" ∧
    isAuthenticated (handleCallback (.response true none (some "tok123"))
      (.error "profile down") "abc" "alpha"
      (storeState "alpha" Storage.empty)).store = true :=
  handleCallback_happy_path (.error "profile down") none "abc" "alpha"
    "tok123" Storage.empty (by decide)

/-- C10: any error thrown inside the `try` block of `exchangeCodeForToken`
whose message contains the substring `'fetch'` (the browser's native
`'Failed to fetch'` included) is replaced before propagation by the fixed
message `'OAuth proxy is not configured. Please deploy the backend
function.'`, so the caller never sees the original message. -/
theorem exchangeCodeForToken_masks_fetch_errors (outcome : FetchOutcome)
    (m : String) (herr : tryExchangeCodeForToken outcome = .error m)
    (hfetch : strIncludes m "fetch" = true) :
    exchangeCodeForToken outcome =
      .error "OAuth proxy is not configured. Please deploy the backend function." := by
  simp [exchangeCodeForToken, herr, hfetch]

/-- Witness for C10 at a fetch that throws `'Failed to fetch'`. -/
theorem exchangeCodeForToken_masks_fetch_errors_witness :
    exchangeCodeForToken (.threw "Failed to fetch") =
      .error "OAuth proxy is not configured. Please deploy the backend function." :=
  exchangeCodeForToken_masks_fetch_errors (.threw "Failed to fetch")
    "Failed to fetch" rfl (by decide)

/-- C5: every `generateAuthUrl` call yields
`authorizationUrl ++ "?" ++` the encoded parameter list, whose parameters
include `client_id`, `redirect_uri`, `scope` (exactly the configured
scopes joined by one space, order preserved), `state` and the
`allow_signup` flag; the very `state` embedded in the URL is
simultaneously persisted to storage and accepted by a subsequent
`validateState`. -/
theorem generateAuthUrl_complete (state : String) (cfg : OAuthConfig)
    (σ : Storage) :
    (generateAuthUrl state cfg σ).1 =
      cfg.authorizationUrl ++ "?" ++ encodeParams (authUrlParams state cfg) ∧
    ("client_id", cfg.clientId) ∈ authUrlParams state cfg ∧
    ("redirect_uri", cfg.redirectUri) ∈ authUrlParams state cfg ∧
    ("scope", String.intercalate " " cfg.scope) ∈ authUrlParams state cfg ∧
    ("state", state) ∈ authUrlParams state cfg ∧
    ("allow_signup", "true") ∈ authUrlParams state cfg ∧
    ((generateAuthUrl state cfg σ).2).state = some state ∧
    (validateState state (generateAuthUrl state cfg σ).2).1 = true := by
  refine ⟨rfl, ?_, ?_, ?_, ?_, ?_, rfl, ?_⟩ <;>
    simp [authUrlParams, generateAuthUrl, storeState, validateState]

/-- C6 counterexample: when the upstream token exchange fails at the
provider with an HTTP-200 response whose body carries an `error` field
(as GitHub does for a bad authorization code), the proxy responds with
status 400, not the upstream status 200 — so the proxy does not always
propagate the upstream provider's HTTP status on a failed exchange. -/
theorem handler_error_body_not_status_passthrough :
    (handler (some "sekret")
      (.response true 200 (some "bad_verification_code")
        (some "The code passed is incorrect or expired.") none none none)
      ⟨"POST", ⟨some "abc", some "cid", some "uri"⟩⟩).1.status = 400 ∧
    ¬ (handler (some "sekret")
      (.response true 200 (some "bad_verification_code")
        (some "The code passed is incorrect or expired.") none none none)
      ⟨"POST", ⟨some "abc", some "cid", some "uri"⟩⟩).1.status = 200 := by
  constructor <;> decide

/-- C6 (amended): when the upstream HTTP response is non-ok the proxy
propagates the upstream status with a JSON `{error, message}` body, and
when the upstream responds ok but its body carries a truthy `error` field
the proxy responds 400, again with a JSON `{error, message}` body — in
both failure branches the body has both fields, but the upstream status
is propagated only in the non-ok branch. -/
theorem handler_upstream_failure_response (secret : Option String)
    (body : ProxyBody) (status : Nat)
    (error error_description access_token token_type scope : Option String)
    (e : String) (hs : jsFalsy secret = false)
    (hc : jsFalsy body.code = false) (hi : jsFalsy body.client_id = false)
    (hr : jsFalsy body.redirect_uri = false) (he : e ≠ "") :
    handler secret
        (.response false status error error_description access_token
          token_type scope) ⟨"POST", body⟩ =
      (⟨status, .errJson "Token exchange failed"
        (some "Failed to exchange authorization code for access token")⟩,
       true) ∧
    handler secret
        (.response true status (some e) error_description access_token
          token_type scope) ⟨"POST", body⟩ =
      (⟨400, .errJson e
        (some (jsOr error_description "Authorization failed"))⟩, true) := by
  have he2 : jsFalsy (some e) = false := by simp [jsFalsy, he]
  constructor <;>
    simp [handler, hs, hc, hi, hr, he2]

/-- Witness for C6's amended theorem at a 503 upstream response and at a
`bad_verification_code` error body. -/
theorem handler_upstream_failure_response_witness :
    handler (some "sekret")
        (.response false 503 none none none none none)
        ⟨"POST", ⟨some "abc", some "cid", some "uri"⟩⟩ =
      (⟨503, .errJson "Token exchange failed"
        (some "Failed to exchange authorization code for access token")⟩,
       true) ∧
    handler (some "sekret")
        (.response true 503 (some "bad_verification_code") none none none
          none) ⟨"POST", ⟨some "abc", some "cid", some "uri"⟩⟩ =
      (⟨400, .errJson "bad_verification_code"
        (some (jsOr none "Authorization failed"))⟩, true) :=
  handler_upstream_failure_response (some "sekret")
    ⟨some "abc", some "cid", some "uri"⟩ 503 none none none none none
    "bad_verification_code" rfl rfl rfl rfl (by decide)

/-- C7: a POST to the proxy whose body misses any of `code`, `client_id`
or `redirect_uri` is answered 400 with
`{error: "Missing required parameters"}`, and the upstream token-exchange
call is never attempted — whatever the secret configuration and whatever
the upstream would have answered. -/
theorem handler_missing_params (secret : Option String)
    (upstream : UpstreamOutcome) (body : ProxyBody)
    (h : body.code = none ∨ body.client_id = none ∨
      body.redirect_uri = none) :
    handler secret upstream ⟨"POST", body⟩ =
      (⟨400, .errJson "Missing required parameters"
        (some "code, client_id, and redirect_uri are required")⟩, false) := by
  rcases h with h | h | h <;> simp [handler, jsFalsy, h]

/-- Witness for C7 at the spec's test body `{code: "x"}` (no `client_id`,
no `redirect_uri`). -/
theorem handler_missing_params_witness :
    handler (some "sekret") (.threw "unreached")
        ⟨"POST", ⟨some "x", none, none⟩⟩ =
      (⟨400, .errJson "Missing required parameters"
        (some "code, client_id, and redirect_uri are required")⟩, false) :=
  handler_missing_params (some "sekret") (.threw "unreached")
    ⟨some "x", none, none⟩ (Or.inr (Or.inl rfl))

/-- C8: the proxy answers every request whose method is neither POST nor
OPTIONS with status 405, and answers every OPTIONS request with 200 and
an empty body (and in neither case attempts the upstream call). -/
theorem handler_method_gating (secret : Option String)
    (upstream : UpstreamOutcome) (req : ProxyRequest) :
    (req.method ≠ "POST" → req.method ≠ "OPTIONS" →
      (handler secret upstream req).1.status = 405) ∧
    (req.method = "OPTIONS" →
      handler secret upstream req = (⟨200, .empty⟩, false)) := by
  constructor
  · intro h1 h2
    simp [handler, h1, h2]
  · intro h
    simp [handler, h]

/-- Witness for C8 at a GET request and an OPTIONS request. -/
theorem handler_method_gating_witness :
    (handler none (.threw "unreached")
      ⟨"GET", ⟨none, none, none⟩⟩).1.status = 405 ∧
    handler none (.threw "unreached") ⟨"OPTIONS", ⟨none, none, none⟩⟩ =
      (⟨200, .empty⟩, false) :=
  ⟨(handler_method_gating none (.threw "unreached")
      ⟨"GET", ⟨none, none, none⟩⟩).1 (by decide) (by decide),
   (handler_method_gating none (.threw "unreached")
      ⟨"OPTIONS", ⟨none, none, none⟩⟩).2 rfl⟩

/-- C4: refuted on the code (code bug).  With every exchange attempt
throwing the network-classified `'Failed to fetch'`, the mount invocation
cascades through the `[retryCount]` effect dependency into 4 handler
invocations all at time 0 — the three retries wait for none of the
claimed 1 s/2 s/4 s backoffs — after which status is already `'error'`
yet three `setTimeout` handler re-invocations are still pending; the
earliest of them (the stale closure that captured `retryCount = 0`,
firing at 1000 ms, before the earliest scheduled redirect at 3000 ms)
performs invocations 5 and 6 and re-schedules itself at 2000 ms.  So the
handler is invoked more than 4 times, the retries are not gated by the
exponential backoff, and invocations continue after the view-model has
settled — contradicting the claimed exactly-4-invocation backoff-gated
budget, which is what the component's own comments and messages
(`MAX_RETRIES`, `Exponential backoff: 1s, 2s, 4s`, `Retrying (n/3)`)
intend. -/
theorem OAuthCallback_retry_code_bug :
    invokeThrowing ⟨"Error", "Failed to fetch"⟩ 8 0 0 VMState.init =
      ⟨3, .error, [(1000, 0), (2000, 1), (4000, 2)], [3000],
       [⟨0, 0⟩, ⟨0, 1⟩, ⟨0, 2⟩, ⟨0, 3⟩]⟩ ∧
    invokeThrowing ⟨"Error", "Failed to fetch"⟩ 8 1000 0
        ⟨3, .error, [(2000, 1), (4000, 2)], [3000],
         [⟨0, 0⟩, ⟨0, 1⟩, ⟨0, 2⟩, ⟨0, 3⟩]⟩ =
      ⟨4, .error, [(2000, 1), (4000, 2), (2000, 0)], [3000, 4000],
       [⟨0, 0⟩, ⟨0, 1⟩, ⟨0, 2⟩, ⟨0, 3⟩, ⟨1000, 0⟩, ⟨1000, 4⟩]⟩ ∧
    (invokeThrowing ⟨"Error", "Failed to fetch"⟩ 8 1000 0
        ⟨3, .error, [(2000, 1), (4000, 2)], [3000],
         [⟨0, 0⟩, ⟨0, 1⟩, ⟨0, 2⟩, ⟨0, 3⟩]⟩).trace.length = 6 := by
  refine ⟨?_, ?_, ?_⟩ <;> decide

end Sentinel
